import Mathlib

/-!
Shallow embedding of the cm-go-service HTTP bootstrap (src/main.go).

The program wires a `net/http` serve mux: three operational endpoints are
registered directly, while every other path falls through to a gorilla mux
services router wrapped by logging, metrics and timeout middleware. The
lifecycle functions start the listener in the background, block on a
termination signal, and shut down with a bounded grace period.

Handlers are modelled as pure functions from a request to a result. Time is
abstract (Nat time units). Each result carries, besides the response, the
elapsed handler time and a trace of the middleware layers on the response
path, outermost layer first, each paired with the status code that layer
produced or forwarded. The trace is ghost instrumentation reflecting the
call nesting of the wrappers; it does not change any response.
-/

/-- An incoming HTTP request. `handlerDuration` is the abstract wall-clock
time (in time units) that the matched business handler needs to finish its
work on this request; routing decisions themselves take no time. -/
structure HTTPRequest where
  method : String
  path : String
  handlerDuration : Nat
deriving DecidableEq, Repr

/-- An HTTP response: status code and body. -/
structure HTTPResponse where
  statusCode : Nat
  body : String
deriving DecidableEq, Repr

/-- Result of running a handler chain: the response sent to the client, the
elapsed time of the inner work, and the layer trace (outermost first, each
layer with the status it produced or forwarded on the response path). -/
structure HandlerResult where
  response : HTTPResponse
  elapsed : Nat
  trace : List (String × Nat)
deriving DecidableEq, Repr

/-- A handler, `http.Handler` in the source. -/
def Handler : Type := HTTPRequest → HandlerResult

/-- src/main.go line 24. -/
def httpServerReadTimeout : Nat := 10

/-- src/main.go line 25. -/
def httpServerWriteTimeout : Nat := 15

/-- src/main.go line 26. -/
def httpServerIdleTimeout : Nat := 20

/-- src/main.go line 27: the budget handed to `http.TimeoutHandler`. -/
def httpHandlersTimeout : Nat := 14

/-- src/main.go line 22. -/
def appDescription : String := ""

/-- `net/http` status code constants used by the embedded handlers. -/
def statusOK : Nat := 200

def statusNotFound : Nat := 404

def statusMethodNotAllowed : Nat := 405

def statusServiceUnavailable : Nat := 503

/-- Path constant `status.GTGPath` from the service-status-go library. -/
def GTGPath : String := "/__gtg"

/-- Path constant `status.BuildInfoPath` from the service-status-go library. -/
def BuildInfoPath : String := "/__build-info"

/-- Modelled from the spec: `TestHandler` (registered in src/main.go line 95)
is defined in a repository file that is not under src/. The spec calls it a
placeholder stand-in business endpoint, so it is modelled as succeeding with
status 200 after performing the work the request asks for, which takes
`handlerDuration` time units. -/
def TestHandler : Handler := fun req =>
  { response := { statusCode := statusOK, body := "OK" },
    elapsed := req.handlerDuration,
    trace := [("TestHandler", statusOK)] }

/-- The gorilla mux services router built in src/main.go lines 93-95. One
route is registered: path "/test" restricted to method "GET". gorilla mux
answers 405 (method not allowed) when the path matches a route but the method
does not, and 404 (not found) when no route matches the path; both answers
are immediate (zero elapsed time) and do not invoke any registered handler. -/
def servicesRouter : Handler := fun req =>
  if req.path = "/test" then
    if req.method = "GET" then
      TestHandler req
    else
      { response := { statusCode := statusMethodNotAllowed, body := "" },
        elapsed := 0, trace := [] }
  else
    { response := { statusCode := statusNotFound, body := "404 page not found" },
      elapsed := 0, trace := [] }

/-- Model of `httphandlers.TransactionAwareRequestLoggingHandler` (wrapped at
src/main.go line 100): delegates to the inner handler, forwards its response
unchanged, and records the request and response metadata it observed - in the
embedding a `logging` trace entry carrying the observed status. -/
def TransactionAwareRequestLoggingHandler (h : Handler) : Handler := fun req =>
  let r := h req
  { r with trace := ("logging", r.response.statusCode) :: r.trace }

/-- Model of `httphandlers.HTTPMetricsHandler` (wrapped at src/main.go line
101): delegates to the inner handler, forwards its response unchanged, and
records count and latency for the observed outcome - in the embedding a
`metrics` trace entry carrying the observed status. -/
def HTTPMetricsHandler (h : Handler) : Handler := fun req =>
  let r := h req
  { r with trace := ("metrics", r.response.statusCode) :: r.trace }

/-- Model of `http.TimeoutHandler h dt msg` (wrapped at src/main.go line
102): if the inner chain finishes within the budget `dt`, its response is
forwarded (with a `timeout` trace entry recording the forwarded status);
otherwise the in-flight work is abandoned and a 503 service-unavailable
response with body `msg` is returned at time `dt`, and the abandoned inner
layers leave no observation on the response path. The process does not crash
in either case: the result is always a well-formed response. -/
def TimeoutHandler (h : Handler) (dt : Nat) (msg : String) : Handler := fun req =>
  let r := h req
  if r.elapsed ≤ dt then
    { r with trace := ("timeout", r.response.statusCode) :: r.trace }
  else
    { response := { statusCode := statusServiceUnavailable, body := msg },
      elapsed := dt,
      trace := [("timeout", statusServiceUnavailable)] }

/-- Modelled from the spec: the health endpoint handler
`fthealth.Handler(healthService.Health())` (src/main.go line 88). The
HealthService lives in a repository file not under src/; the spec says the
endpoint returns a detailed health report computed directly from the health
checks, with no middleware involved. Its body is opaque to the claims. -/
def healthEndpointHandler : Handler := fun _ =>
  { response := { statusCode := statusOK, body := "health report" },
    elapsed := 0, trace := [("healthHandler", statusOK)] }

/-- Modelled from the spec: the good-to-go handler
`status.NewGoodToGoHandler(healthService.GTG)` (src/main.go line 89), a plain
boolean readiness signal bound directly to the health aggregator. -/
def gtgEndpointHandler : Handler := fun _ =>
  { response := { statusCode := statusOK, body := "OK" },
    elapsed := 0, trace := [("gtgHandler", statusOK)] }

/-- Modelled from the spec: `status.BuildInfoHandler` (src/main.go line 90),
static build metadata served directly. -/
def buildInfoEndpointHandler : Handler := fun _ =>
  { response := { statusCode := statusOK, body := "build info" },
    elapsed := 0, trace := [("buildInfoHandler", statusOK)] }

/-- The wrapped services router built in src/main.go lines 99-102: starting
from `servicesRouter`, the logging handler is applied first, then the metrics
handler around it, then `http.TimeoutHandler` around that with budget
`httpHandlersTimeout` and empty body. The wrapper applied last is outermost. -/
def wrappedServicesRouter : Handler :=
  TimeoutHandler
    (HTTPMetricsHandler (TransactionAwareRequestLoggingHandler servicesRouter))
    httpHandlersTimeout ""

/-- The composition as the specification words it, for comparison with
`wrappedServicesRouter`: logging outermost, metrics inside that, timeout
innermost wrapping the base router. -/
def specOrderedWrappedServicesRouter : Handler :=
  TransactionAwareRequestLoggingHandler
    (HTTPMetricsHandler (TimeoutHandler servicesRouter httpHandlersTimeout ""))

/-- The serve mux dispatch of `registerEndpoints` (src/main.go lines 84-107):
the three operational paths are registered exactly and bound directly to
their handlers; the pattern "/" catches every other path and hands it to the
wrapped services router. -/
def registerEndpoints : Handler := fun req =>
  if req.path = "/__health" then healthEndpointHandler req
  else if req.path = GTGPath then gtgEndpointHandler req
  else if req.path = BuildInfoPath then buildInfoEndpointHandler req
  else wrappedServicesRouter req

/-- The operational paths registered directly on the serve mux. -/
def operationalPaths : List String := ["/__health", GTGPath, BuildInfoPath]

/-- The names of the three middleware layers wrapped around the services
router. -/
def middlewareNames : List String := ["logging", "metrics", "timeout"]

/-- A result passed through none of the middleware layers: no trace entry is
named after one of them. -/
def bypassesMiddleware (r : HandlerResult) : Prop :=
  ∀ p, p ∈ r.trace → p.1 ∉ middlewareNames

instance (r : HandlerResult) : Decidable (bypassesMiddleware r) := by
  unfold bypassesMiddleware; infer_instance

/-- Outcome of a lifecycle step that either lets the process continue or
terminates it through `log.Fatalf`, which exits with code 1. -/
inductive LifecycleOutcome where
  | continues : LifecycleOutcome
  | fatalExit : String → LifecycleOutcome
deriving DecidableEq, Repr

/-- The process exit code an outcome produces: a fatal outcome exits with
code 1; otherwise the process goes on to exit cleanly with code 0. -/
def exitCode : LifecycleOutcome → Nat
  | LifecycleOutcome.continues => 0
  | LifecycleOutcome.fatalExit _ => 1

/-- The error value `server.ListenAndServe()` terminates with: the sentinel
`http.ErrServerClosed` after an intentional `Shutdown`, or any other error
(a bind failure such as a port conflict included), carried with its
message. -/
inductive ServeError where
  | errServerClosed : ServeError
  | otherError : String → ServeError
deriving DecidableEq, Repr

/-- The textual message of a serve error, as `%v` formats it. -/
def serveErrorMessage : ServeError → String
  | ServeError.errServerClosed => "http: Server closed"
  | ServeError.otherError m => m

/-- `startHTTPServer` (src/main.go lines 119-123): runs the listen-and-serve
loop and inspects the error it returned. A nil error or the sentinel
`http.ErrServerClosed` lets the goroutine end quietly; any other error is
fatal (`log.Fatalf`), terminating the process at once - there is no loop or
retry, the function body is this single conditional. -/
def startHTTPServer (err : Option ServeError) : LifecycleOutcome :=
  match err with
  | none => LifecycleOutcome.continues
  | some e =>
    if e = ServeError.errServerClosed then
      LifecycleOutcome.continues
    else
      LifecycleOutcome.fatalExit
        ("http server failed to start: " ++ serveErrorMessage e)

/-- The shutdown grace period wired into the context at src/main.go line
128: 30 time units. -/
def shutdownGracePeriod : Nat := 30

/-- Model of `server.Shutdown(ctx)` with a deadline `grace` time units away:
the server stops accepting new connections and waits for in-flight requests;
if they all finish within the grace period it returns nil, otherwise the
context deadline expires first and it returns the deadline error, leaving the
remaining connections to be torn down by the caller (here: process exit).
`drainTime` is the abstract time the in-flight requests need to complete. -/
def serverShutdown (drainTime grace : Nat) : Option String :=
  if drainTime ≤ grace then none else some "context deadline exceeded"

/-- `stopHTTPServer` (src/main.go lines 125-134): shuts the server down under
a 30-time-unit deadline; a nil result lets the main flow return and the
process exit cleanly, a deadline error is fatal (`log.Fatalf`), exiting
non-zero. -/
def stopHTTPServer (drainTime : Nat) : LifecycleOutcome :=
  match serverShutdown drainTime shutdownGracePeriod with
  | none => LifecycleOutcome.continues
  | some e =>
    LifecycleOutcome.fatalExit ("failed to gracefully shutdown the server: " ++ e)

/-- Model of a mow.cli string option (src/main.go lines 33-59): the value is
taken from the named environment variable when it is set, and from the
documented default otherwise. mow.cli reads the environment when the option
is declared, before `app.Run`, so the resolved value is already in effect at
the `NewUPPLogger` call on line 61. -/
def cliStringOpt (env : String → Option String) (envVar defaultValue : String) : String :=
  match env envVar with
  | some v => v
  | none => defaultValue

/-- The resolved app-system-code option (src/main.go lines 33-38). -/
def appSystemCode (env : String → Option String) : String :=
  cliStringOpt env "APP_SYSTEM_CODE" "cm-go-service"

/-- The resolved app-name option (src/main.go lines 40-45). -/
def appName (env : String → Option String) : String :=
  cliStringOpt env "APP_NAME" "cm-go-service"

/-- The resolved port option (src/main.go lines 47-52). -/
def port (env : String → Option String) : String :=
  cliStringOpt env "APP_PORT" "8080"

/-- The resolved log-level option (src/main.go lines 54-59). -/
def logLevel (env : String → Option String) : String :=
  cliStringOpt env "LOG_LEVEL" "INFO"

/-- The logger state `logger.NewUPPLogger` builds: the application name it
logs under and the verbosity level it operates at. -/
structure UPPLogger where
  serviceName : String
  level : String
deriving DecidableEq, Repr

/-- `logger.NewUPPLogger` as called at src/main.go line 61. -/
def NewUPPLogger (name lvl : String) : UPPLogger :=
  { serviceName := name, level := lvl }

/-- The logger the process runs with: built from the resolved app-name and
log-level options (src/main.go line 61). -/
def mainLogger (env : String → Option String) : UPPLogger :=
  NewUPPLogger (appName env) (logLevel env)

/-- The configured fields of the `http.Server` built by `newHTTPServer`
(src/main.go lines 109-117). -/
structure HTTPServerConfig where
  addr : String
  readTimeout : Nat
  writeTimeout : Nat
  idleTimeout : Nat
deriving DecidableEq, Repr

/-- `newHTTPServer` (src/main.go lines 109-117): binds on ":" plus the
resolved port and carries the three fixed server timeouts. -/
def newHTTPServer (p : String) : HTTPServerConfig :=
  { addr := ":" ++ p,
    readTimeout := httpServerReadTimeout,
    writeTimeout := httpServerWriteTimeout,
    idleTimeout := httpServerIdleTimeout }

/-- The observable steps of the main flow (`app.Action`, src/main.go lines
63-75, and `waitForSignal`, lines 136-140), in the order the main goroutine
performs them. `spawnServerStart` is the `go startHTTPServer(server, log)`
statement launching the listener task; `notifySignals` is the
`signal.Notify` registration; `blockForSignal` is the blocking channel
receive; `stopServer` is the `stopHTTPServer` call. -/
inductive MainEvent where
  | logStartup : MainEvent
  | buildHealthService : MainEvent
  | buildRouter : MainEvent
  | buildServer : MainEvent
  | spawnServerStart : MainEvent
  | notifySignals : MainEvent
  | blockForSignal : MainEvent
  | stopServer : MainEvent
deriving DecidableEq, Repr

/-- The body of `waitForSignal` (src/main.go lines 136-140): register for
SIGINT and SIGTERM, then block on the channel receive. -/
def waitForSignalEvents : List MainEvent :=
  [MainEvent.notifySignals, MainEvent.blockForSignal]

/-- The main flow of `app.Action` (src/main.go lines 63-75) as the sequence
of its observable steps in program order. -/
def appActionEvents : List MainEvent :=
  [MainEvent.logStartup, MainEvent.buildHealthService, MainEvent.buildRouter,
   MainEvent.buildServer, MainEvent.spawnServerStart]
  ++ waitForSignalEvents ++ [MainEvent.stopServer]

/-! Helper lemmas shared by the claim theorems. -/

theorem registerEndpoints_business (req : HTTPRequest)
    (h : req.path ∉ operationalPaths) :
    registerEndpoints req = wrappedServicesRouter req := by
  simp only [operationalPaths, List.mem_cons, List.not_mem_nil, or_false, not_or] at h
  obtain ⟨h1, h2, h3⟩ := h
  simp [registerEndpoints, h1, h2, h3]

theorem wrappedServicesRouter_within (req : HTTPRequest)
    (h : (servicesRouter req).elapsed ≤ httpHandlersTimeout) :
    wrappedServicesRouter req =
      { response := (servicesRouter req).response,
        elapsed := (servicesRouter req).elapsed,
        trace := ("timeout", (servicesRouter req).response.statusCode)
          :: ("metrics", (servicesRouter req).response.statusCode)
          :: ("logging", (servicesRouter req).response.statusCode)
          :: (servicesRouter req).trace } := by
  simp [wrappedServicesRouter, TimeoutHandler, HTTPMetricsHandler,
    TransactionAwareRequestLoggingHandler, h]

theorem wrappedServicesRouter_beyond (req : HTTPRequest)
    (h : httpHandlersTimeout < (servicesRouter req).elapsed) :
    wrappedServicesRouter req =
      { response := { statusCode := statusServiceUnavailable, body := "" },
        elapsed := httpHandlersTimeout,
        trace := [("timeout", statusServiceUnavailable)] } := by
  simp [wrappedServicesRouter, TimeoutHandler, HTTPMetricsHandler,
    TransactionAwareRequestLoggingHandler, Nat.not_le.mpr h]

theorem servicesRouter_no_route (req : HTTPRequest) (h : req.path ≠ "/test") :
    servicesRouter req =
      { response := { statusCode := statusNotFound, body := "404 page not found" },
        elapsed := 0, trace := [] } := by
  simp [servicesRouter, h]

/-! Claim theorems. -/

/-- C1 counterexample: at the concrete slow request GET /test needing 20 time
units, the handler built by registerEndpoints differs from the composition
the claim describes (logging outermost, metrics inside, timeout innermost):
the timeout layer is outermost, so the logging layer never observes the
503 service-unavailable outcome of the timeout, while under the claimed
composition it would. -/
theorem middleware_order_claim_counterexample :
    wrappedServicesRouter ⟨"GET", "/test", 20⟩
      ≠ specOrderedWrappedServicesRouter ⟨"GET", "/test", 20⟩ ∧
    ("logging", statusServiceUnavailable)
      ∉ (wrappedServicesRouter ⟨"GET", "/test", 20⟩).trace ∧
    ("logging", statusServiceUnavailable)
      ∈ (specOrderedWrappedServicesRouter ⟨"GET", "/test", 20⟩).trace ∧
    (wrappedServicesRouter ⟨"GET", "/test", 20⟩).trace.head?
      = some ("timeout", statusServiceUnavailable) := by
  decide

/-- C1 (amended): in the actual composition the timeout layer is outermost,
the metrics layer inside it, and the logging layer innermost wrapping the
base router, so the timeout layer observes the metrics and logging layers
and, when the budget is exceeded, returns 503 without logging or metrics
observing that outcome on the response path. -/
theorem middleware_order_actual (req : HTTPRequest) :
    ((servicesRouter req).elapsed ≤ httpHandlersTimeout →
      (wrappedServicesRouter req).response = (servicesRouter req).response ∧
      (wrappedServicesRouter req).trace =
        ("timeout", (servicesRouter req).response.statusCode)
          :: ("metrics", (servicesRouter req).response.statusCode)
          :: ("logging", (servicesRouter req).response.statusCode)
          :: (servicesRouter req).trace) ∧
    (httpHandlersTimeout < (servicesRouter req).elapsed →
      (wrappedServicesRouter req).response.statusCode = statusServiceUnavailable ∧
      (wrappedServicesRouter req).trace = [("timeout", statusServiceUnavailable)]) := by
  constructor
  · intro h
    rw [wrappedServicesRouter_within req h]
    exact ⟨rfl, rfl⟩
  · intro h
    rw [wrappedServicesRouter_beyond req h]
    exact ⟨rfl, rfl⟩

/-- C1 witness: the amended theorem applied at a fast request (3 time units)
and at a slow request (20 time units). -/
theorem middleware_order_actual_witness :
    ((servicesRouter ⟨"GET", "/test", 3⟩).elapsed ≤ httpHandlersTimeout ∧
      (wrappedServicesRouter ⟨"GET", "/test", 3⟩).response
        = (servicesRouter ⟨"GET", "/test", 3⟩).response ∧
      (wrappedServicesRouter ⟨"GET", "/test", 3⟩).trace =
        ("timeout", (servicesRouter ⟨"GET", "/test", 3⟩).response.statusCode)
          :: ("metrics", (servicesRouter ⟨"GET", "/test", 3⟩).response.statusCode)
          :: ("logging", (servicesRouter ⟨"GET", "/test", 3⟩).response.statusCode)
          :: (servicesRouter ⟨"GET", "/test", 3⟩).trace) ∧
    (httpHandlersTimeout < (servicesRouter ⟨"GET", "/test", 20⟩).elapsed ∧
      (wrappedServicesRouter ⟨"GET", "/test", 20⟩).response.statusCode
        = statusServiceUnavailable) :=
  ⟨⟨by decide, (middleware_order_actual ⟨"GET", "/test", 3⟩).1 (by decide)⟩,
   ⟨by decide, ((middleware_order_actual ⟨"GET", "/test", 20⟩).2 (by decide)).1⟩⟩

/-- C2: requests to /__health, the good-to-go path and the build-info path
are answered directly by the health and status handlers, with no logging,
metrics or timeout middleware on the way; every other path is handed to the
middleware-wrapped business router. -/
theorem operational_paths_bypass_middleware (req : HTTPRequest) :
    (req.path = "/__health" →
      registerEndpoints req = healthEndpointHandler req ∧
      bypassesMiddleware (registerEndpoints req)) ∧
    (req.path = GTGPath →
      registerEndpoints req = gtgEndpointHandler req ∧
      bypassesMiddleware (registerEndpoints req)) ∧
    (req.path = BuildInfoPath →
      registerEndpoints req = buildInfoEndpointHandler req ∧
      bypassesMiddleware (registerEndpoints req)) ∧
    (req.path ∉ operationalPaths →
      registerEndpoints req = wrappedServicesRouter req) := by
  refine ⟨?_, ?_, ?_, registerEndpoints_business req⟩
  · intro h
    have e : registerEndpoints req = healthEndpointHandler req := by
      simp [registerEndpoints, h]
    refine ⟨e, ?_⟩
    rw [e]
    exact (by decide : bypassesMiddleware (healthEndpointHandler ⟨"GET", "/__health", 0⟩))
  · intro h
    have e : registerEndpoints req = gtgEndpointHandler req := by
      simp [registerEndpoints, h, GTGPath, BuildInfoPath]
    refine ⟨e, ?_⟩
    rw [e]
    exact (by decide : bypassesMiddleware (gtgEndpointHandler ⟨"GET", "/__gtg", 0⟩))
  · intro h
    have e : registerEndpoints req = buildInfoEndpointHandler req := by
      simp [registerEndpoints, h, GTGPath, BuildInfoPath]
    refine ⟨e, ?_⟩
    rw [e]
    exact (by decide : bypassesMiddleware (buildInfoEndpointHandler ⟨"GET", "/__build-info", 0⟩))

/-- C2 witness: the theorem applied at concrete requests for each operational
path and for a business path. -/
theorem operational_paths_bypass_middleware_witness :
    (registerEndpoints ⟨"GET", "/__health", 0⟩
        = healthEndpointHandler ⟨"GET", "/__health", 0⟩ ∧
      bypassesMiddleware (registerEndpoints ⟨"GET", "/__health", 0⟩)) ∧
    (registerEndpoints ⟨"GET", "/__gtg", 0⟩
        = gtgEndpointHandler ⟨"GET", "/__gtg", 0⟩ ∧
      bypassesMiddleware (registerEndpoints ⟨"GET", "/__gtg", 0⟩)) ∧
    (registerEndpoints ⟨"GET", "/__build-info", 0⟩
        = buildInfoEndpointHandler ⟨"GET", "/__build-info", 0⟩ ∧
      bypassesMiddleware (registerEndpoints ⟨"GET", "/__build-info", 0⟩)) ∧
    registerEndpoints ⟨"GET", "/test", 3⟩ = wrappedServicesRouter ⟨"GET", "/test", 3⟩ :=
  ⟨(operational_paths_bypass_middleware ⟨"GET", "/__health", 0⟩).1 rfl,
   (operational_paths_bypass_middleware ⟨"GET", "/__gtg", 0⟩).2.1 rfl,
   (operational_paths_bypass_middleware ⟨"GET", "/__build-info", 0⟩).2.2.1 rfl,
   (operational_paths_bypass_middleware ⟨"GET", "/test", 3⟩).2.2.2 (by decide)⟩

/-- C3: on any business path (any path outside the operational ones), when
the inner handler chain does not complete within the 14-time-unit budget the
timeout layer abandons the work and answers 503 service-unavailable - the
model is a total function, so a well-formed response is produced and the
process does not crash - and when the chain completes within the budget its
response is forwarded unchanged. -/
theorem timeout_enforced_on_business_paths (req : HTTPRequest)
    (hop : req.path ∉ operationalPaths) :
    (httpHandlersTimeout < (servicesRouter req).elapsed →
      (registerEndpoints req).response.statusCode = statusServiceUnavailable) ∧
    ((servicesRouter req).elapsed ≤ httpHandlersTimeout →
      (registerEndpoints req).response = (servicesRouter req).response) := by
  rw [registerEndpoints_business req hop]
  constructor
  · intro h
    rw [wrappedServicesRouter_beyond req h]
  · intro h
    rw [wrappedServicesRouter_within req h]

/-- C3 witness: the theorem applied at a slow request (20 time units,
answered 503) and at a fast request (3 time units, answered by the handler
itself). -/
theorem timeout_enforced_on_business_paths_witness :
    (⟨"GET", "/test", 20⟩ : HTTPRequest).path ∉ operationalPaths ∧
    httpHandlersTimeout < (servicesRouter ⟨"GET", "/test", 20⟩).elapsed ∧
    (registerEndpoints ⟨"GET", "/test", 20⟩).response.statusCode
      = statusServiceUnavailable ∧
    (servicesRouter ⟨"GET", "/test", 3⟩).elapsed ≤ httpHandlersTimeout ∧
    (registerEndpoints ⟨"GET", "/test", 3⟩).response
      = (servicesRouter ⟨"GET", "/test", 3⟩).response :=
  ⟨by decide, by decide,
   (timeout_enforced_on_business_paths ⟨"GET", "/test", 20⟩ (by decide)).1 (by decide),
   by decide,
   (timeout_enforced_on_business_paths ⟨"GET", "/test", 3⟩ (by decide)).2 (by decide)⟩

/-- C8: a request whose path is neither an operational path nor the one
registered business route /test is answered with 404 not-found (produced by
the business router and forwarded unchanged through the middleware). -/
theorem unmatched_paths_not_found (req : HTTPRequest)
    (hop : req.path ∉ operationalPaths) (hr : req.path ≠ "/test") :
    (registerEndpoints req).response.statusCode = statusNotFound := by
  rw [registerEndpoints_business req hop]
  have hs := servicesRouter_no_route req hr
  have hf : (servicesRouter req).elapsed ≤ httpHandlersTimeout := by
    rw [hs]
    decide
  rw [wrappedServicesRouter_within req hf, hs]

/-- C8 witness: the theorem applied at a concrete unmatched request. -/
theorem unmatched_paths_not_found_witness :
    (⟨"PUT", "/nothing-here", 99⟩ : HTTPRequest).path ∉ operationalPaths ∧
    (registerEndpoints ⟨"PUT", "/nothing-here", 99⟩).response.statusCode
      = statusNotFound :=
  ⟨by decide,
   unmatched_paths_not_found ⟨"PUT", "/nothing-here", 99⟩ (by decide) (by decide)⟩

/-- C10: the business route /test is registered for GET only: a /test request
with any other method is answered 405 method-not-allowed by the business
router (not 404), the placeholder handler is not invoked, and the same 405
is forwarded unchanged by the full server dispatch. -/
theorem test_route_get_only (m : String) (d : Nat) (hm : m ≠ "GET") :
    (servicesRouter ⟨m, "/test", d⟩).response.statusCode = statusMethodNotAllowed ∧
    (servicesRouter ⟨m, "/test", d⟩).response.statusCode ≠ statusNotFound ∧
    (∀ s, ("TestHandler", s) ∉ (servicesRouter ⟨m, "/test", d⟩).trace) ∧
    (registerEndpoints ⟨m, "/test", d⟩).response.statusCode
      = statusMethodNotAllowed := by
  have hs : servicesRouter ⟨m, "/test", d⟩ =
      { response := { statusCode := statusMethodNotAllowed, body := "" },
        elapsed := 0, trace := [] } := by
    simp [servicesRouter, hm]
  have hop : (⟨m, "/test", d⟩ : HTTPRequest).path ∉ operationalPaths :=
    (by decide : ("/test" : String) ∉ operationalPaths)
  have hf : (servicesRouter ⟨m, "/test", d⟩).elapsed ≤ httpHandlersTimeout := by
    rw [hs]
    decide
  refine ⟨?_, ?_, ?_, ?_⟩
  · rw [hs]
  · rw [hs]
    decide
  · intro s
    rw [hs]
    simp
  · rw [registerEndpoints_business _ hop, wrappedServicesRouter_within _ hf, hs]

/-- C10 witness: the theorem applied at a concrete POST /test request. -/
theorem test_route_get_only_witness :
    (servicesRouter ⟨"POST", "/test", 3⟩).response.statusCode
      = statusMethodNotAllowed ∧
    (registerEndpoints ⟨"POST", "/test", 3⟩).response.statusCode
      = statusMethodNotAllowed :=
  ⟨(test_route_get_only "POST" 3 (by decide)).1,
   (test_route_get_only "POST" 3 (by decide)).2.2.2⟩

/-- C4: on a termination signal, stopHTTPServer drains in-flight requests
under a 30-time-unit grace period: a drain that finishes within the period
lets the main flow continue to a clean exit with code 0; a drain that
exceeds it makes Shutdown return the deadline error, which is logged as
fatal and exits the process with a non-zero code - the remaining open
connections are torn down by that process exit. -/
theorem shutdown_grace_period (drainTime : Nat) :
    (drainTime ≤ shutdownGracePeriod →
      stopHTTPServer drainTime = LifecycleOutcome.continues ∧
      exitCode (stopHTTPServer drainTime) = 0) ∧
    (shutdownGracePeriod < drainTime →
      stopHTTPServer drainTime =
        LifecycleOutcome.fatalExit
          "failed to gracefully shutdown the server: context deadline exceeded" ∧
      exitCode (stopHTTPServer drainTime) ≠ 0) := by
  constructor
  · intro h
    simp [stopHTTPServer, serverShutdown, h, exitCode]
  · intro h
    simp [stopHTTPServer, serverShutdown, Nat.not_le.mpr h, exitCode]

/-- C4 witness: the theorem applied at a 5-time-unit drain (clean, exit 0)
and a 31-time-unit drain (fatal, non-zero exit). -/
theorem shutdown_grace_period_witness :
    (5 ≤ shutdownGracePeriod ∧ exitCode (stopHTTPServer 5) = 0) ∧
    (shutdownGracePeriod < 31 ∧ exitCode (stopHTTPServer 31) ≠ 0) :=
  ⟨⟨by decide, ((shutdown_grace_period 5).1 (by decide)).2⟩,
   ⟨by decide, ((shutdown_grace_period 31).2 (by decide)).2⟩⟩

/-- C5: a bind failure surfaces as a listen-and-serve error other than the
server-closed sentinel; startHTTPServer treats any such error as fatal,
producing an exit with code 1 (non-zero) - the function is a single
conditional, so nothing is retried. -/
theorem bind_failure_is_fatal (m : String) :
    startHTTPServer (some (ServeError.otherError m)) =
      LifecycleOutcome.fatalExit ("http server failed to start: " ++ m) ∧
    exitCode (startHTTPServer (some (ServeError.otherError m))) = 1 := by
  constructor
  · simp [startHTTPServer, serveErrorMessage]
  · simp [startHTTPServer, serveErrorMessage, exitCode]

/-- C9: the server-closed sentinel returned after an intentional shutdown is
explicitly excluded from the fatal branch of startHTTPServer (as is a nil
error), so an intentional shutdown never triggers the fatal failed-to-start
exit, while every other listen-and-serve error does. -/
theorem server_closed_not_fatal :
    startHTTPServer (some ServeError.errServerClosed) = LifecycleOutcome.continues ∧
    startHTTPServer none = LifecycleOutcome.continues ∧
    ∀ e, e ≠ ServeError.errServerClosed →
      exitCode (startHTTPServer (some e)) = 1 := by
  refine ⟨rfl, rfl, ?_⟩
  intro e he
  simp [startHTTPServer, he, exitCode]

/-- C9 witness: the theorem applied with a concrete non-sentinel error. -/
theorem server_closed_not_fatal_witness :
    ServeError.otherError "listen tcp :8080: bind: address already in use"
      ≠ ServeError.errServerClosed ∧
    exitCode (startHTTPServer (some (ServeError.otherError
      "listen tcp :8080: bind: address already in use"))) = 1 :=
  ⟨by decide,
   server_closed_not_fatal.2.2
     (ServeError.otherError "listen tcp :8080: bind: address already in use")
     (by decide)⟩

/-- C6: each configuration option resolves to the environment value when its
variable is set and to the documented default otherwise, and the resolved
values are what the process uses: the logger runs with the resolved
application name and verbosity level, and the server binds to the resolved
port. -/
theorem env_overrides_configuration (env : String → Option String) (v : String) :
    (env "APP_SYSTEM_CODE" = some v → appSystemCode env = v) ∧
    (env "APP_SYSTEM_CODE" = none → appSystemCode env = "cm-go-service") ∧
    (env "APP_NAME" = some v →
      appName env = v ∧ (mainLogger env).serviceName = v) ∧
    (env "APP_NAME" = none → appName env = "cm-go-service") ∧
    (env "APP_PORT" = some v →
      port env = v ∧ (newHTTPServer (port env)).addr = ":" ++ v) ∧
    (env "APP_PORT" = none → port env = "8080") ∧
    (env "LOG_LEVEL" = some v →
      logLevel env = v ∧ (mainLogger env).level = v) ∧
    (env "LOG_LEVEL" = none → logLevel env = "INFO") := by
  refine ⟨?_, ?_, ?_, ?_, ?_, ?_, ?_, ?_⟩ <;> intro h <;>
    simp [appSystemCode, appName, port, logLevel, cliStringOpt, mainLogger,
      NewUPPLogger, newHTTPServer, h]

/-- A concrete environment for exercising the configuration claims: four
variables set, everything else absent. -/
def sampleEnv : String → Option String := fun s =>
  if s = "APP_SYSTEM_CODE" then some "up-cgs"
  else if s = "APP_NAME" then some "my-service"
  else if s = "APP_PORT" then some "9090"
  else if s = "LOG_LEVEL" then some "DEBUG"
  else none

/-- C6 witness: the theorem applied at the sample environment for each of
the four variables. -/
theorem env_overrides_configuration_witness :
    appSystemCode sampleEnv = "up-cgs" ∧
    (mainLogger sampleEnv).serviceName = "my-service" ∧
    (newHTTPServer (port sampleEnv)).addr = ":" ++ "9090" ∧
    (mainLogger sampleEnv).level = "DEBUG" ∧
    logLevel (fun _ => none) = "INFO" :=
  ⟨(env_overrides_configuration sampleEnv "up-cgs").1 (by decide),
   ((env_overrides_configuration sampleEnv "my-service").2.2.1 (by decide)).2,
   ((env_overrides_configuration sampleEnv "9090").2.2.2.2.1 (by decide)).2,
   ((env_overrides_configuration sampleEnv "DEBUG").2.2.2.2.2.2.1 (by decide)).2,
   (env_overrides_configuration (fun _ => none) "DEBUG").2.2.2.2.2.2.2 rfl⟩

/-- C7: in the main flow event order, the listener task is launched and the
signal registration performed before the blocking wait for a termination
signal begins, and the shutdown call comes only after the wait returns - so
shutdown is only ever initiated after the listener start. -/
theorem startup_ordering :
    appActionEvents.indexOf MainEvent.spawnServerStart
      < appActionEvents.indexOf MainEvent.notifySignals ∧
    appActionEvents.indexOf MainEvent.notifySignals
      < appActionEvents.indexOf MainEvent.blockForSignal ∧
    appActionEvents.indexOf MainEvent.blockForSignal
      < appActionEvents.indexOf MainEvent.stopServer ∧
    appActionEvents.indexOf MainEvent.spawnServerStart
      < appActionEvents.indexOf MainEvent.stopServer ∧
    waitForSignalEvents.indexOf MainEvent.notifySignals
      < waitForSignalEvents.indexOf MainEvent.blockForSignal ∧
    MainEvent.spawnServerStart ∈ appActionEvents ∧
    MainEvent.blockForSignal ∈ appActionEvents ∧
    MainEvent.stopServer ∈ appActionEvents := by
  decide
